import Mathlib

/-!
Verification development for `server/src/domain/sql_opaque_handler.rs`:
the PAKE (OPAQUE) protocol orchestration layer of the lldap server.

The orchestrator functions (`get_password_file_for_user`, `passwords_match`,
`bind`, `login_start`, `login_finish`, `registration_start`,
`registration_finish`, `register_password`, and the test harness
`attempt_login`) are shallowly embedded from the Rust source.  The external
collaborators that the source calls but that are not part of the sources under
review — the PAKE primitive (`lldap_auth::opaque`), the authenticated
encryption (`orion::aead`), the serializers (`bincode`/`base64`) and the SQL
store (`sqlx`) — are modelled from the specification's interface contracts
(§4.1, §4.2, §4.3 of the spec); each such definition is marked
`Modelled from the spec`.  Randomness (`OsRng`) is made explicit: every
operation that draws randomness takes the drawn nonces as parameters.
Database state is passed explicitly: operations that write return the new
`DbState`.
-/

namespace Lldap

/-- Usernames (`UserId` in the source) are case-normalized strings, used as an
entirely opaque identifier by this layer; modelled as naturals. -/
abbrev UserName := Nat

/-- Cleartext passwords, opaque to the orchestration layer. -/
abbrev Password := Nat

/-- Raw byte strings (stored password-file blobs, serialized payloads). -/
abbrev Bytes := List Nat

/-- The `DomainError` variants reachable from this file, with the
conversions (`From` impls of `error.rs`, described by spec §7) applied:

* `authenticationError u` — `DomainError::AuthenticationError(format!(" for
  user '{}'", name))` as produced at the end of `bind`; carries the username.
* `authenticationProtocolError` — a protocol error of the PAKE primitive
  converted by `?` (spec §7: collapsed into the generic authentication
  failure class at the public boundary).
* `internalCorruptedFile u` — `DomainError::InternalError(format!("Corrupted
  password file for {}", username))`.
* `databaseError` — an `sqlx::Error` converted by `?` (store unavailable).
* `integrityError` — an `orion` decryption/verification failure converted
  by `?` (envelope did not open).
* `decodeError` — a `bincode`/`base64` failure converted by `?`. -/
inductive DomainError where
  | authenticationError (user : UserName)
  | authenticationProtocolError
  | internalCorruptedFile (user : UserName)
  | databaseError
  | integrityError
  | decodeError
  deriving DecidableEq, Repr

/- ## PAKE primitive.

Modelled from the spec: the PAKE Exchange Driver contract of spec §4.2 (the
primitive itself lives in the `lldap_auth` crate, which is not among the
sources under review).  The model is the ideal functionality: a blinded
message is a nonce, a password file records the (setup, username, password)
binding established by registration, a login exchange succeeds exactly when
the client's password matches the stored file for the server's identity, and
`start_login` with `none` always yields a structurally valid (dummy)
response whose finish step can never succeed. -/

/-- The password file (`opaque::server::ServerRegistration`): the durable
artifact of a registration, binding the server setup, the credential
identifier (username) and the password. -/
structure PasswordFile where
  setup : Nat
  username : UserName
  password : Password
  deriving DecidableEq, Repr

/-- Client registration start message (blinded password element + nonce).
The server never inspects the blinded element. -/
structure ClientRegistrationStartMessage where
  blindedPassword : Password
  nonce : Nat
  deriving DecidableEq, Repr

/-- Client-side transient registration state. -/
structure ClientRegistrationState where
  password : Password
  nonce : Nat
  deriving DecidableEq, Repr

/-- Result of `opaque::client::registration::start_registration`. -/
structure ClientRegistrationStartResult where
  message : ClientRegistrationStartMessage
  state : ClientRegistrationState
  deriving DecidableEq, Repr

/-- `opaque::client::registration::start_registration` (rng explicit). -/
def client_start_registration (password : Password) (nonce : Nat) :
    ClientRegistrationStartResult :=
  { message := ⟨password, nonce⟩, state := ⟨password, nonce⟩ }

/-- The server's registration response, binding its setup and the credential
identifier, echoing the client nonce. -/
structure RegistrationResponse where
  setup : Nat
  username : UserName
  nonce : Nat
  deriving DecidableEq, Repr

/-- `opaque::server::registration::start_registration`: stateless, evaluates
the OPRF under the server setup for the given credential identifier. -/
def start_registration (setup : Nat) (msg : ClientRegistrationStartMessage)
    (username : UserName) : RegistrationResponse :=
  ⟨setup, username, msg.nonce⟩

/-- The client's registration upload (`RegistrationUpload`): the record the
server turns into the password file. -/
structure RegistrationUpload where
  setup : Nat
  username : UserName
  password : Password
  deriving DecidableEq, Repr

/-- `opaque::client::registration::finish_registration`: completes the
exchange; fails if the server response does not match the client state. -/
def client_finish_registration (state : ClientRegistrationState)
    (resp : RegistrationResponse) : Except Unit RegistrationUpload :=
  if resp.nonce = state.nonce then
    .ok ⟨resp.setup, resp.username, state.password⟩
  else .error ()

/-- `opaque::server::registration::get_password_file`: wraps the upload into
the durable password file. -/
def get_password_file (upload : RegistrationUpload) : PasswordFile :=
  ⟨upload.setup, upload.username, upload.password⟩

/-- Client login start message: a blinded element carrying no password
information; the nonce stands for the client's ephemeral. -/
structure ClientLoginStartMessage where
  nonce : Nat
  deriving DecidableEq, Repr

/-- Client-side transient login state. -/
structure ClientLoginState where
  password : Password
  nonce : Nat
  deriving DecidableEq, Repr

/-- Result of `opaque::client::login::start_login`. -/
structure ClientLoginStartResult where
  message : ClientLoginStartMessage
  state : ClientLoginState
  deriving DecidableEq, Repr

/-- `opaque::client::login::start_login` (rng explicit). -/
def client_start_login (password : Password) (nonce : Nat) :
    ClientLoginStartResult :=
  { message := ⟨nonce⟩, state := ⟨password, nonce⟩ }

/-- The server's credential response.  `file = none` is the dummy response
produced when no genuine password file exists (spec §4.2: structurally valid
in both cases; its finish step can never succeed). -/
structure CredentialResponse where
  file : Option PasswordFile
  clientNonce : Nat
  serverNonce : Nat
  username : UserName
  deriving DecidableEq, Repr

/-- The server's transient login state, required by the matching finish. -/
structure ServerLoginState where
  file : Option PasswordFile
  username : UserName
  setup : Nat
  clientNonce : Nat
  serverNonce : Nat
  deriving DecidableEq, Repr

/-- Result of `opaque::server::login::start_login`. -/
structure ServerLoginStartResult where
  message : CredentialResponse
  state : ServerLoginState
  deriving DecidableEq, Repr

/-- `opaque::server::login::start_login` (rng explicit): always yields a
structurally valid response, whether or not a genuine password file exists
(spec §4.2: the mandatory fake-registration path). -/
def server_start_login (setup : Nat) (file : Option PasswordFile)
    (msg : ClientLoginStartMessage) (username : UserName) (serverNonce : Nat) :
    ServerLoginStartResult :=
  { message := ⟨file, msg.nonce, serverNonce, username⟩,
    state := ⟨file, username, setup, msg.nonce, serverNonce⟩ }

/-- The client's credential finalization: proves knowledge of the password
for this exchange's nonces. -/
structure CredentialFinalization where
  password : Password
  clientNonce : Nat
  serverNonce : Nat
  deriving DecidableEq, Repr

/-- `opaque::client::login::finish_login`: succeeds exactly when the server's
response was computed from a genuine password file matching the client's
password (and the response belongs to this exchange). -/
def client_finish_login (st : ClientLoginState) (resp : CredentialResponse) :
    Except Unit CredentialFinalization :=
  match resp.file with
  | none => .error ()
  | some f =>
    if f.password = st.password ∧ resp.clientNonce = st.nonce ∧
        f.username = resp.username then
      .ok ⟨st.password, st.nonce, resp.serverNonce⟩
    else .error ()

/-- `opaque::server::login::finish_login`: the sole authentication decision
point of the PAKE path (spec §4.2); succeeds exactly when the client's
finalization proves knowledge of the password of the stored file for this
exchange; yields the (discarded) session key. -/
def server_finish_login (st : ServerLoginState) (fin : CredentialFinalization) :
    Except Unit Nat :=
  match st.file with
  | none => .error ()
  | some f =>
    if fin.password = f.password ∧ fin.clientNonce = st.clientNonce ∧
        fin.serverNonce = st.serverNonce ∧ f.username = st.username then
      .ok (Nat.pair st.clientNonce st.serverNonce)
    else .error ()

/- ## Serialization.

Modelled from the spec: `ServerRegistration::serialize`/`deserialize` and the
`bincode` encoding of the `ServerData` payloads — injective byte encodings
with a partial, exact inverse. -/

/-- `ServerRegistration::serialize`. -/
def serializePF (f : PasswordFile) : Bytes :=
  [f.setup, f.username, f.password]

/-- `ServerRegistration::deserialize`: fails on anything that is not a
serialized password file (a corrupted stored blob). -/
def deserializePF : Bytes → Except Unit PasswordFile
  | [s, u, p] => .ok ⟨s, u, p⟩
  | _ => .error ()

/-- `login::ServerData`: the payload sealed by `login_start` and opened by
`login_finish` — the username plus the transient server login state. -/
structure LoginServerData where
  username : UserName
  server_login : ServerLoginState
  deriving DecidableEq, Repr

/-- Byte encoding of an optional password file. -/
def serializeOptPF : Option PasswordFile → Bytes
  | none => [0]
  | some f => 1 :: serializePF f

/-- `bincode::serialize` of `login::ServerData`. -/
def serializeLoginSD (sd : LoginServerData) : Bytes :=
  sd.username :: sd.server_login.username :: sd.server_login.setup ::
    sd.server_login.clientNonce :: sd.server_login.serverNonce ::
    serializeOptPF sd.server_login.file

/-- `bincode::deserialize` of `login::ServerData`. -/
def deserializeLoginSD : Bytes → Except Unit LoginServerData
  | du :: su :: ss :: cn :: sn :: rest =>
    match rest with
    | [0] => .ok ⟨du, ⟨none, su, ss, cn, sn⟩⟩
    | [1, fs, fu, fp] => .ok ⟨du, ⟨some ⟨fs, fu, fp⟩, su, ss, cn, sn⟩⟩
    | _ => .error ()
  | _ => .error ()

/-- `registration::ServerData`: the payload sealed by `registration_start` —
just the username, no secret material. -/
structure RegServerData where
  username : UserName
  deriving DecidableEq, Repr

/-- `bincode::serialize` of `registration::ServerData`. -/
def serializeRegSD (sd : RegServerData) : Bytes := [sd.username]

/-- `bincode::deserialize` of `registration::ServerData`. -/
def deserializeRegSD : Bytes → Except Unit RegServerData
  | [u] => .ok ⟨u⟩
  | _ => .error ()

/- ## Envelope codec.

Modelled from the spec: `orion::aead::seal`/`open` (spec §4.1) — ideal
authenticated encryption under the server-wide secret key.  Confidentiality
is not modelled (no claim depends on it); authenticity is modelled by an
authentication tag that is an injective function of the key and the
ciphertext, so that verification succeeds exactly on honestly sealed
envelopes.  The base64 transport encoding is bijective on its range and is
elided. -/

/-- Injective encoding of a byte string into a single natural (the MAC input). -/
def encodeL : Bytes → Nat
  | [] => 0
  | a :: l => Nat.pair a (encodeL l) + 1

/-- The authentication tag over key and ciphertext. -/
def mac (key : Nat) (ct : Bytes) : Nat := Nat.pair key (encodeL ct)

/-- A sealed envelope: ciphertext plus authentication tag (spec §3,
`EncryptedEnvelope`). -/
structure Envelope where
  ct : Bytes
  tag : Nat
  deriving DecidableEq, Repr

/-- `orion::aead::seal`: authenticated-encrypt the payload under the key. -/
def sealAead (key : Nat) (payload : Bytes) : Envelope :=
  ⟨payload, mac key payload⟩

/-- `orion::aead::open`: verify and decrypt; fails if the tag does not
verify; never returns partial output on failure. -/
def openAead (key : Nat) (e : Envelope) : Except Unit Bytes :=
  if e.tag = mac key e.ct then .ok e.ct else .error ()

/-- The modifications an attacker can apply to a sealed envelope without the
key: changing a ciphertext byte, changing the tag, or truncating the
ciphertext. -/
inductive Tampered (e : Envelope) : Envelope → Prop where
  | flipCt (i : Nat) (v : Nat) (hi : i < e.ct.length)
      (hv : v ≠ e.ct.get ⟨i, hi⟩) : Tampered e ⟨e.ct.set i v, e.tag⟩
  | flipTag (t : Nat) (ht : t ≠ e.tag) : Tampered e ⟨e.ct, t⟩
  | truncate (k : Nat) (hk : k < e.ct.length) : Tampered e ⟨e.ct.take k, e.tag⟩

/- ## Credential store.

The `users` table (`sqlx` + `sea_query`, external): one row per user, with a
nullable `password_hash` blob column.  `rows u = none` means no row for `u`;
`rows u = some none` means a row whose `password_hash` is NULL;
`rows u = some (some b)` means a row holding blob `b`.  `available` models
whether the store call itself succeeds. -/
structure DbState where
  rows : UserName → Option (Option Bytes)
  available : Bool

/-- `sqlx` errors distinguishable at the call sites in the source. -/
inductive SqlxError where
  | rowNotFound
  | connectionError
  deriving DecidableEq, Repr

/-- `fetch_optional`: no row is `Ok(None)`; only a store failure is an error. -/
def fetchOptional (db : DbState) (u : UserName) :
    Except Unit (Option (Option Bytes)) :=
  if db.available then .ok (db.rows u) else .error ()

/-- `fetch_one`: no row is itself an `Err` (`RowNotFound`), indistinguishable
by an `if let Ok(..)` from a store failure. -/
def fetchOne (db : DbState) (u : UserName) : Except SqlxError (Option Bytes) :=
  if db.available then
    match db.rows u with
    | some cell => .ok cell
    | none => .error .rowNotFound
  else .error .connectionError

/-- The `UPDATE users SET password_hash = bytes WHERE user_id = u` issued by
`registration_finish`: rewrites the column of an existing row; a user with no
row is unaffected (zero rows updated, not reported). -/
def updatedDb (db : DbState) (u : UserName) (bytes : Bytes) : DbState :=
  { rows := fun v =>
      if v = u then (db.rows v).map (fun _ => some bytes) else db.rows v,
    available := db.available }

/- ## The handler (from the source). -/

/-- The server configuration: the envelope-sealing key
(`get_server_keys().private()`) and the PAKE server setup
(`get_server_setup()`). -/
structure ServerConfig where
  privateKey : Nat
  serverSetup : Nat
  deriving DecidableEq, Repr

/-- `SqlBackendHandler` (= `SqlOpaqueHandler`): configuration plus the SQL
pool, the latter modelled by the database state it reaches. -/
structure Handler where
  config : ServerConfig
  db : DbState

/-- `get_password_file_for_user` (source lines 53–86): fetch the
`password_hash` column for the user; `Ok(None)` both when there is no row
and when the column is NULL; deserialize failure becomes
`InternalError("Corrupted password file for ..")`; a store failure
propagates via `?`. -/
def get_password_file_for_user (h : Handler) (username : UserName) :
    Except DomainError (Option PasswordFile) :=
  match fetchOptional h.db username with
  | .error _ => .error .databaseError
  | .ok none => .ok none
  | .ok (some none) => .ok none
  | .ok (some (some password_file_bytes)) =>
    match deserializePF password_file_bytes with
    | .ok f => .ok (some f)
    | .error _ => .error (.internalCorruptedFile username)

/-- `passwords_match` (source lines 19–43): run a full in-process login
exchange — client start, deserialize the stored file (failure mapped to
`AuthenticationError::ProtocolError`), server start with the file, client
finish.  (The server finish is not run.)  Any failure is an error. -/
def passwords_match (password_file_bytes : Bytes) (clear_password : Password)
    (server_setup : Nat) (username : UserName) (clientNonce serverNonce : Nat) :
    Except Unit Unit :=
  let client_login_start_result := client_start_login clear_password clientNonce
  match deserializePF password_file_bytes with
  | .error _ => .error ()
  | .ok password_file =>
    let server_login_start_result :=
      server_start_login server_setup (some password_file)
        client_login_start_result.message username serverNonce
    match client_finish_login client_login_start_result.state
        server_login_start_result.message with
    | .error _ => .error ()
    | .ok _ => .ok ()

/-- `BindRequest` (simple-bind transport): username and cleartext password. -/
structure BindRequest where
  name : UserName
  password : Password
  deriving DecidableEq, Repr

/-- `bind` (source lines 92–125): fetch the row with `fetch_one`; if the
fetch succeeded and the column is non-NULL, run `passwords_match` and return
`Ok` exactly on its success; every other outcome — fetch error (no row or
store failure), NULL column, `passwords_match` failure — falls through to the
single `Err(AuthenticationError(" for user '<name>'"))` at the end. -/
def bind (h : Handler) (request : BindRequest) (clientNonce serverNonce : Nat) :
    Except DomainError Unit :=
  match fetchOne h.db request.name with
  | .ok (some password_hash) =>
    match passwords_match password_hash request.password
        h.config.serverSetup request.name clientNonce serverNonce with
    | .ok _ => .ok ()
    | .error _ => .error (.authenticationError request.name)
  | .ok none => .error (.authenticationError request.name)
  | .error _ => .error (.authenticationError request.name)

/-- `login::ClientLoginStartRequest`. -/
structure ClientLoginStartRequest where
  username : UserName
  login_start_request : ClientLoginStartMessage
  deriving DecidableEq, Repr

/-- `login::ServerLoginStartResponse`: the sealed server state and the
credential response. -/
structure ServerLoginStartResponse where
  server_data : Envelope
  credential_response : CredentialResponse
  deriving DecidableEq, Repr

/-- `login_start` (source lines 131–157): look up the password file (`?`
propagates lookup errors); call the driver's `start_login` with the
file-or-none; seal `{username, server_login}` under the server key; return
the sealed state and the credential response. -/
def login_start (h : Handler) (request : ClientLoginStartRequest)
    (serverNonce : Nat) : Except DomainError ServerLoginStartResponse :=
  match get_password_file_for_user h request.username with
  | .error e => .error e
  | .ok maybe_password_file =>
    let start_response :=
      server_start_login h.config.serverSetup maybe_password_file
        request.login_start_request request.username serverNonce
    let server_data : LoginServerData :=
      ⟨request.username, start_response.state⟩
    let encrypted_state :=
      sealAead h.config.privateKey (serializeLoginSD server_data)
    .ok ⟨encrypted_state, start_response.message⟩

/-- `login::ClientLoginFinishRequest`. -/
structure ClientLoginFinishRequest where
  server_data : Envelope
  credential_finalization : CredentialFinalization
  deriving DecidableEq, Repr

/-- `login_finish` (source lines 160–176): open the envelope, deserialize
`{username, server_login}`, run the driver's `finish_login` (discarding the
session key), and return the username from the envelope.  The store is never
consulted. -/
def login_finish (h : Handler) (request : ClientLoginFinishRequest) :
    Except DomainError UserName :=
  match openAead h.config.privateKey request.server_data with
  | .error _ => .error .integrityError
  | .ok payload =>
    match deserializeLoginSD payload with
    | .error _ => .error .decodeError
    | .ok sd =>
      match server_finish_login sd.server_login
          request.credential_finalization with
      | .error _ => .error .authenticationProtocolError
      | .ok _ => .ok sd.username

/-- `registration::ClientRegistrationStartRequest`. -/
structure ClientRegistrationStartRequest where
  username : UserName
  registration_start_request : ClientRegistrationStartMessage
  deriving DecidableEq, Repr

/-- `registration::ServerRegistrationStartResponse`. -/
structure ServerRegistrationStartResponse where
  server_data : Envelope
  registration_response : RegistrationResponse
  deriving DecidableEq, Repr

/-- `registration_start` (source lines 179–198): run the driver's
`start_registration`, seal `{username}`, return both.  Never touches the
store. -/
def registration_start (h : Handler)
    (request : ClientRegistrationStartRequest) :
    Except DomainError ServerRegistrationStartResponse :=
  let start_response :=
    start_registration h.config.serverSetup
      request.registration_start_request request.username
  let server_data : RegServerData := ⟨request.username⟩
  let encrypted_state := sealAead h.config.privateKey (serializeRegSD server_data)
  .ok ⟨encrypted_state, start_response⟩

/-- `registration::ClientRegistrationFinishRequest`. -/
structure ClientRegistrationFinishRequest where
  server_data : Envelope
  registration_upload : RegistrationUpload
  deriving DecidableEq, Repr

/-- `registration_finish` (source lines 200–225): open the envelope,
deserialize `{username}`, derive the password file from the upload, and issue
the `UPDATE` for that username (its affected-row count is ignored); a store
failure on the `UPDATE` propagates via `?`.  Returns the new database
state. -/
def registration_finish (h : Handler)
    (request : ClientRegistrationFinishRequest) :
    Except DomainError DbState :=
  match openAead h.config.privateKey request.server_data with
  | .error _ => .error .integrityError
  | .ok payload =>
    match deserializeRegSD payload with
    | .error _ => .error .decodeError
    | .ok sd =>
      let password_file := get_password_file request.registration_upload
      if h.db.available then
        .ok (updatedDb h.db sd.username (serializePF password_file))
      else .error .databaseError

/-- `register_password` (source lines 230–256), the provisioning harness:
client registration start, server `registration_start`, client registration
finish, server `registration_finish`; first error propagates.  Returns the
new database state (the source returns `Ok(())` with the write as a side
effect). -/
def register_password (h : Handler) (username : UserName)
    (password : Password) (regNonce : Nat) : Except DomainError DbState :=
  let reg_start := client_start_registration password regNonce
  match registration_start h ⟨username, reg_start.message⟩ with
  | .error e => .error e
  | .ok start_response =>
    match client_finish_registration reg_start.state
        start_response.registration_response with
    | .error _ => .error .authenticationProtocolError
    | .ok reg_finish =>
      registration_finish h ⟨start_response.server_data, reg_finish⟩

/-- `attempt_login` (source test harness, lines 298–323): client login start,
server `login_start`, client login finish, server `login_finish`; first
error propagates.  Returns the authenticated username from `login_finish`
(the source discards it and returns `Ok(())`). -/
def attempt_login (h : Handler) (username : UserName) (password : Password)
    (clientNonce serverNonce : Nat) : Except DomainError UserName :=
  let log_start := client_start_login password clientNonce
  match login_start h ⟨username, log_start.message⟩ serverNonce with
  | .error e => .error e
  | .ok start_response =>
    match client_finish_login log_start.state
        start_response.credential_response with
    | .error _ => .error .authenticationProtocolError
    | .ok log_finish =>
      match login_finish h ⟨start_response.server_data, log_finish⟩ with
      | .error e => .error e
      | .ok uid => .ok uid

/- ## Concrete sample states (for witnesses and counterexamples). -/

/-- A sample configuration. -/
def cfg0 : ServerConfig := ⟨0, 0⟩

/-- An available store with no rows at all. -/
def dbEmpty : DbState := ⟨fun _ => none, true⟩

/-- An available store where user `1` has a row with a NULL password hash. -/
def dbNoPassword : DbState := ⟨fun v => if v = 1 then some none else none, true⟩

/-- An available store where user `1`'s stored blob does not deserialize. -/
def dbCorrupted : DbState :=
  ⟨fun v => if v = 1 then some (some []) else none, true⟩

/-- An unavailable store. -/
def dbDown : DbState := ⟨fun _ => none, false⟩

/- ## Basic lemmas about the modelled externals. -/

/-- Deserializing a serialized password file recovers it exactly. -/
theorem deserializePF_serializePF (f : PasswordFile) :
    deserializePF (serializePF f) = .ok f := rfl

/-- Deserializing a serialized login `ServerData` recovers it exactly. -/
theorem deserializeLoginSD_serializeLoginSD (sd : LoginServerData) :
    deserializeLoginSD (serializeLoginSD sd) = .ok sd := by
  obtain ⟨du, file, su, ss, cn, sn⟩ := sd
  cases file <;> rfl

/-- Deserializing a serialized registration `ServerData` recovers it. -/
theorem deserializeRegSD_serializeRegSD (sd : RegServerData) :
    deserializeRegSD (serializeRegSD sd) = .ok sd := rfl

/-- The byte-string encoding feeding the MAC is injective. -/
theorem encodeL_inj : ∀ {l1 l2 : Bytes}, encodeL l1 = encodeL l2 → l1 = l2 := by
  intro l1
  induction l1 with
  | nil =>
    intro l2 h
    cases l2 with
    | nil => rfl
    | cons b t => simp [encodeL] at h
  | cons a t ih =>
    intro l2 h
    cases l2 with
    | nil => simp [encodeL] at h
    | cons b t2 =>
      simp only [encodeL, Nat.add_right_cancel_iff] at h
      obtain ⟨h1, h2⟩ := Nat.pair_eq_pair.mp h
      rw [h1, ih h2]

/-- The tag determines key and ciphertext. -/
theorem mac_inj {k1 k2 : Nat} {c1 c2 : Bytes} (h : mac k1 c1 = mac k2 c2) :
    k1 = k2 ∧ c1 = c2 := by
  obtain ⟨h1, h2⟩ := Nat.pair_eq_pair.mp h
  exact ⟨h1, encodeL_inj h2⟩

/-- Opening an envelope sealed under the same key yields exactly the sealed
payload. -/
theorem openAead_sealAead (key : Nat) (p : Bytes) :
    openAead key (sealAead key p) = .ok p := by
  simp [openAead, sealAead]

/-- Opening only ever succeeds on an envelope that is exactly the sealing of
the returned payload: no partial or garbage plaintext. -/
theorem openAead_sound {key : Nat} {e : Envelope} {p : Bytes}
    (h : openAead key e = .ok p) : e = sealAead key p := by
  obtain ⟨ct, tag⟩ := e
  by_cases htag : tag = mac key ct
  · simp only [openAead, htag, if_pos rfl] at h
    cases h
    simp [sealAead, htag]
  · simp [openAead, htag] at h

/-- Helper: setting a list entry to a genuinely different value changes the
list. -/
theorem set_ne_of_get_ne {l : Bytes} {i v : Nat} (hi : i < l.length)
    (hv : v ≠ l.get ⟨i, hi⟩) : l.set i v ≠ l := by
  intro heq
  apply hv
  have := congrArg (fun t : Bytes => t[i]?) heq
  simp only [List.getElem?_set_self', List.getElem?_eq_getElem hi] at this
  simpa [List.get_eq_getElem] using this

/-- Every tampering of a sealed envelope fails verification. -/
theorem openAead_tampered {key : Nat} {p : Bytes} {e : Envelope}
    (h : Tampered (sealAead key p) e) : openAead key e = .error () := by
  cases h with
  | flipCt i v hi hv =>
    simp only [openAead]
    rw [if_neg]
    intro hmac
    exact set_ne_of_get_ne hi hv (mac_inj hmac.symm).2
  | flipTag t ht =>
    simp only [openAead]
    rw [if_neg]
    exact ht
  | truncate k hk =>
    simp only [openAead]
    rw [if_neg]
    intro hmac
    have hct : p = p.take k := (mac_inj hmac).2
    have hlen := congrArg List.length hct
    have hk' : k < p.length := by simpa [sealAead] using hk
    simp only [List.length_take] at hlen
    omega

/- ## Lemmas about the orchestrator. -/

/-- Against an available store, the provisioning harness always reports
success and its only store effect is the `UPDATE` for the registered
username (whether or not that user has a row). -/
theorem register_password_ok (cfg : ServerConfig) (db : DbState)
    (u : UserName) (pw : Password) (rn : Nat) (hav : db.available = true) :
    register_password ⟨cfg, db⟩ u pw rn =
      .ok (updatedDb db u (serializePF ⟨cfg.serverSetup, u, pw⟩)) := by
  simp [register_password, registration_start, start_registration,
    client_start_registration, client_finish_registration,
    registration_finish, openAead_sealAead, deserializeRegSD_serializeRegSD,
    get_password_file, hav]

/-- After the `UPDATE` written by a registration for user `u`, the lookup
for `u` yields exactly the registered file, provided `u` had a row. -/
theorem get_password_file_for_user_updated (cfg : ServerConfig)
    (db : DbState) (u : UserName) (f : PasswordFile) (cell : Option Bytes)
    (hav : db.available = true) (hrow : db.rows u = some cell) :
    get_password_file_for_user ⟨cfg, updatedDb db u (serializePF f)⟩ u =
      .ok (some f) := by
  simp [get_password_file_for_user, fetchOptional, updatedDb, hav, hrow,
    deserializePF_serializePF]

/-- If the lookup yields a file whose password and credential identifier
match, the full login exchange succeeds and returns the username. -/
theorem attempt_login_with_file (cfg : ServerConfig) (db : DbState)
    (u : UserName) (pw : Password) (cn sn : Nat) (f : PasswordFile)
    (hlookup : get_password_file_for_user ⟨cfg, db⟩ u = .ok (some f))
    (hfpw : f.password = pw) (hfu : f.username = u) :
    attempt_login ⟨cfg, db⟩ u pw cn sn = .ok u := by
  simp [attempt_login, login_start, hlookup, client_start_login,
    server_start_login, client_finish_login, hfpw, hfu, login_finish,
    openAead_sealAead, deserializeLoginSD_serializeLoginSD,
    server_finish_login]

/-- If the lookup yields a file whose password does not match the supplied
one, the login exchange fails at the client finalization step with the
protocol (authentication) error. -/
theorem attempt_login_wrong_password (cfg : ServerConfig) (db : DbState)
    (u : UserName) (pw' : Password) (cn sn : Nat) (f : PasswordFile)
    (hlookup : get_password_file_for_user ⟨cfg, db⟩ u = .ok (some f))
    (hne : f.password ≠ pw') :
    attempt_login ⟨cfg, db⟩ u pw' cn sn = .error .authenticationProtocolError := by
  simp [attempt_login, login_start, hlookup, client_start_login,
    server_start_login, client_finish_login, hne]

/- ## Claims. -/

deriving instance DecidableEq for Except

/-- Provision a password for username `1`, which has no user row, then run
the login exchange with that same username and password. -/
def registerThenLoginGhost : Except DomainError UserName :=
  match register_password ⟨cfg0, dbEmpty⟩ 1 10 0 with
  | .error e => .error e
  | .ok db1 => attempt_login ⟨cfg0, db1⟩ 1 10 1 2

/-- C1 (counterexample to the claim as stated): for a username with no user
row, `register_password` reports success but persists nothing (the `UPDATE`
matches no row), so the immediately following login exchange with the very
same password fails instead of returning the user's identity.  The claim's
"for any username and password" is therefore false. -/
theorem c1_counterexample :
    registerThenLoginGhost = .error .authenticationProtocolError := by decide

/-- C1 (amended): for any username that has a user row (and an available
store), registering a password via the provisioning harness
(`register_password`) and then immediately running the login exchange
(`login_start` then `login_finish`, composed by `attempt_login`) with the
same username and password succeeds and returns the identity of that
username; running the same exchange with a different password fails with the
authentication (protocol) error. -/
theorem c1_register_then_login_round_trip (cfg : ServerConfig) (db : DbState)
    (u : UserName) (cell : Option Bytes) (pw pw' : Password)
    (rn cn sn cn' sn' : Nat) (hav : db.available = true)
    (hrow : db.rows u = some cell) (hpw : pw' ≠ pw) :
    ∃ db1, register_password ⟨cfg, db⟩ u pw rn = .ok db1 ∧
      attempt_login ⟨cfg, db1⟩ u pw cn sn = .ok u ∧
      attempt_login ⟨cfg, db1⟩ u pw' cn' sn' =
        .error .authenticationProtocolError := by
  refine ⟨updatedDb db u (serializePF ⟨cfg.serverSetup, u, pw⟩),
    register_password_ok cfg db u pw rn hav, ?_, ?_⟩
  · exact attempt_login_with_file cfg _ u pw cn sn _
      (get_password_file_for_user_updated cfg db u _ cell hav hrow) rfl rfl
  · exact attempt_login_wrong_password cfg _ u pw' cn' sn' _
      (get_password_file_for_user_updated cfg db u _ cell hav hrow)
      (Ne.symm hpw)

/-- C1 witness: the amended round trip evaluated for user `1` (who has a row
with a NULL password hash) with password `10` and wrong password `20`. -/
theorem c1_register_then_login_round_trip_witness :
    ∃ db1, register_password ⟨cfg0, dbNoPassword⟩ 1 10 0 = .ok db1 ∧
      attempt_login ⟨cfg0, db1⟩ 1 10 1 2 = .ok 1 ∧
      attempt_login ⟨cfg0, db1⟩ 1 20 3 4 =
        .error .authenticationProtocolError :=
  c1_register_then_login_round_trip cfg0 dbNoPassword 1 none 10 20 0 1 2 3 4
    rfl rfl (by decide)

/-- The response `login_start` computes along the no-password-file path: the
driver's `start_login` invoked with `none`, its transient state sealed. -/
def loginStartWithNone (cfg : ServerConfig) (u : UserName)
    (msg : ClientLoginStartMessage) (serverNonce : Nat) :
    ServerLoginStartResponse :=
  let start_response := server_start_login cfg.serverSetup none msg u serverNonce
  ⟨sealAead cfg.privateKey (serializeLoginSD ⟨u, start_response.state⟩),
    start_response.message⟩

/-- C2: for every client start message, `login_start` for a username with no
user row and `login_start` for a username whose row has a NULL password file
both succeed, and both return exactly the response produced by invoking the
PAKE driver's `start_login` with a `none` password file — in particular the
two responses are identical (same shape class, no error, no early
return). -/
theorem c2_no_enumeration (cfg : ServerConfig) (dbA dbB : DbState)
    (u : UserName) (msg : ClientLoginStartMessage) (sn : Nat)
    (havA : dbA.available = true) (havB : dbB.available = true)
    (hA : dbA.rows u = none) (hB : dbB.rows u = some none) :
    login_start ⟨cfg, dbA⟩ ⟨u, msg⟩ sn = .ok (loginStartWithNone cfg u msg sn) ∧
    login_start ⟨cfg, dbB⟩ ⟨u, msg⟩ sn = .ok (loginStartWithNone cfg u msg sn) := by
  constructor <;>
    simp [login_start, get_password_file_for_user, fetchOptional, havA, havB,
      hA, hB, loginStartWithNone]

/-- C2 witness: the no-enumeration invariant evaluated at user `1` for the
no-row store and the NULL-password store. -/
theorem c2_no_enumeration_witness :
    login_start ⟨cfg0, dbEmpty⟩ ⟨1, ⟨7⟩⟩ 5 =
      .ok (loginStartWithNone cfg0 1 ⟨7⟩ 5) ∧
    login_start ⟨cfg0, dbNoPassword⟩ ⟨1, ⟨7⟩⟩ 5 =
      .ok (loginStartWithNone cfg0 1 ⟨7⟩ 5) :=
  c2_no_enumeration cfg0 dbEmpty dbNoPassword 1 ⟨7⟩ 5 rfl rfl rfl rfl

/-- C3: (1) opening an envelope sealed under the server secret key yields
exactly the sealed payload; (2) opening succeeds only on an envelope that is
exactly the sealing of the returned payload — no partial or garbage
plaintext is ever produced; (3,4) after any modification of a sealed
envelope (a changed ciphertext byte, a changed tag, or a truncation), the
matching `login_finish`/`registration_finish` call fails with the integrity
error (escalated to the authentication class at the public boundary) and
never succeeds. -/
theorem c3_envelope_codec :
    (∀ (key : Nat) (p : Bytes), openAead key (sealAead key p) = .ok p) ∧
    (∀ (key : Nat) (e : Envelope) (p : Bytes),
      openAead key e = .ok p → e = sealAead key p) ∧
    (∀ (h : Handler) (p : Bytes) (e : Envelope)
      (fin : CredentialFinalization),
      Tampered (sealAead h.config.privateKey p) e →
        login_finish h ⟨e, fin⟩ = .error .integrityError) ∧
    (∀ (h : Handler) (p : Bytes) (e : Envelope) (up : RegistrationUpload),
      Tampered (sealAead h.config.privateKey p) e →
        registration_finish h ⟨e, up⟩ = .error .integrityError) := by
  refine ⟨openAead_sealAead, fun _ _ _ => openAead_sound, ?_, ?_⟩
  · intro h p e fin ht
    simp [login_finish, openAead_tampered ht]
  · intro h p e up ht
    simp [registration_finish, openAead_tampered ht]

/-- C3 witness: the codec round-trips the payload `[5]` under key `0`, and
`login_finish` on the envelope for `[5]` with its tag altered fails with the
integrity error. -/
theorem c3_envelope_codec_witness :
    openAead 0 (sealAead 0 [5]) = .ok [5] ∧
    login_finish ⟨cfg0, dbEmpty⟩ ⟨⟨[5], 962⟩, ⟨0, 0, 0⟩⟩ =
      .error .integrityError :=
  ⟨c3_envelope_codec.1 0 [5],
    c3_envelope_codec.2.2.1 ⟨cfg0, dbEmpty⟩ [5] ⟨[5], 962⟩ ⟨0, 0, 0⟩
      (Tampered.flipTag 962 (by decide))⟩

/-- C4 (counterexample to the claim as stated): the store lookup
`get_password_file_for_user` returns the very same value, `Ok(None)`, for a
username with no user row (`dbEmpty`) and for a username whose row has a
NULL password file (`dbNoPassword`) — there is no three-way result and the
two empty cases are not distinguished in the returned value. -/
theorem c4_counterexample :
    get_password_file_for_user ⟨cfg0, dbEmpty⟩ 1 = .ok none ∧
    get_password_file_for_user ⟨cfg0, dbNoPassword⟩ 1 = .ok none := by decide

/-- C4 (amended): against an available store the lookup returns a two-way
result: `Ok(None)` exactly when there is no row or the row's password file
is NULL (the two empty cases are conflated, distinguished only by source
comments, not for logging or callers), and `Ok(Some f)` only for a stored
blob that deserializes to `f`. -/
theorem c4_lookup_two_way (h : Handler) (u : UserName)
    (hav : h.db.available = true) :
    (get_password_file_for_user h u = .ok none ↔
      (h.db.rows u = none ∨ h.db.rows u = some none)) ∧
    (∀ f, get_password_file_for_user h u = .ok (some f) →
      ∃ b, h.db.rows u = some (some b) ∧ deserializePF b = .ok f) := by
  constructor
  · constructor
    · intro hok
      rcases hrows : h.db.rows u with _ | cell
      · exact .inl rfl
      · rcases cell with _ | b
        · exact .inr rfl
        · exfalso
          rcases hd : deserializePF b with e | f <;>
            simp [get_password_file_for_user, fetchOptional, hav, hrows,
              hd] at hok
    · rintro (hrows | hrows) <;>
        simp [get_password_file_for_user, fetchOptional, hav, hrows]
  · intro f hok
    rcases hrows : h.db.rows u with _ | cell
    · simp [get_password_file_for_user, fetchOptional, hav, hrows] at hok
    · rcases cell with _ | b
      · simp [get_password_file_for_user, fetchOptional, hav, hrows] at hok
      · rcases hd : deserializePF b with e | f' <;>
          simp [get_password_file_for_user, fetchOptional, hav, hrows,
            hd] at hok
        exact ⟨b, rfl, by rw [hd, hok]⟩

/-- C4 witness: the amended lookup characterization evaluated for user `1`
against the NULL-password store. -/
theorem c4_lookup_two_way_witness :
    (get_password_file_for_user ⟨cfg0, dbNoPassword⟩ 1 = .ok none ↔
      (dbNoPassword.rows 1 = none ∨ dbNoPassword.rows 1 = some none)) ∧
    (∀ f, get_password_file_for_user ⟨cfg0, dbNoPassword⟩ 1 = .ok (some f) →
      ∃ b, dbNoPassword.rows 1 = some (some b) ∧ deserializePF b = .ok f) :=
  c4_lookup_two_way ⟨cfg0, dbNoPassword⟩ 1 rfl

/-- C5: against an available store, (1) if the stored password file is
absent — no user row or NULL column — `bind` fails with the generic
authentication error immediately (the result does not depend on the
password or the exchange randomness: no fake exchange is run); (2) if a
blob is stored, `bind` reduces to running `passwords_match` on it, with
every failure collapsed to the same error; (3) `bind` returns `Ok` exactly
when the in-process login exchange over the stored blob and the supplied
cleartext password succeeds; (4) every failure of any sub-step yields the
one generic `AuthenticationError(" for user '<name>'")` value. -/
theorem c5_bind_legacy_path (h : Handler) (u : UserName) (pw : Password)
    (cn sn : Nat) (hav : h.db.available = true) :
    ((h.db.rows u = none ∨ h.db.rows u = some none) →
      bind h ⟨u, pw⟩ cn sn = .error (.authenticationError u)) ∧
    (∀ b, h.db.rows u = some (some b) →
      bind h ⟨u, pw⟩ cn sn =
        match passwords_match b pw h.config.serverSetup u cn sn with
        | .ok _ => .ok ()
        | .error _ => .error (.authenticationError u)) ∧
    (bind h ⟨u, pw⟩ cn sn = .ok () ↔
      ∃ b, h.db.rows u = some (some b) ∧
        passwords_match b pw h.config.serverSetup u cn sn = .ok ()) ∧
    (∀ e, bind h ⟨u, pw⟩ cn sn = .error e → e = .authenticationError u) := by
  refine ⟨?_, ?_, ?_, ?_⟩
  · rintro (hrows | hrows) <;> simp [bind, fetchOne, hav, hrows]
  · intro b hrows
    rcases hpm : passwords_match b pw h.config.serverSetup u cn sn
      with e | x <;> simp [bind, fetchOne, hav, hrows, hpm]
  · constructor
    · intro hok
      rcases hrows : h.db.rows u with _ | cell
      · simp [bind, fetchOne, hav, hrows] at hok
      · rcases cell with _ | b
        · simp [bind, fetchOne, hav, hrows] at hok
        · rcases hpm : passwords_match b pw h.config.serverSetup u cn sn
            with e | x
          · simp [bind, fetchOne, hav, hrows, hpm] at hok
          · exact ⟨b, rfl, by rw [hpm]⟩
    · rintro ⟨b, hrows, hpm⟩
      simp [bind, fetchOne, hav, hrows, hpm]
  · intro e he
    rcases hrows : h.db.rows u with _ | cell
    · simp [bind, fetchOne, hav, hrows] at he
      exact he.symm
    · rcases cell with _ | b
      · simp [bind, fetchOne, hav, hrows] at he
        exact he.symm
      · rcases hpm : passwords_match b pw h.config.serverSetup u cn sn
          with e' | x <;> simp [bind, fetchOne, hav, hrows, hpm] at he
        exact he.symm

/-- C5 witness: the legacy bind characterization evaluated for user `1`
against the store holding a corrupted blob. -/
theorem c5_bind_legacy_path_witness :
    ((dbCorrupted.rows 1 = none ∨ dbCorrupted.rows 1 = some none) →
      bind ⟨cfg0, dbCorrupted⟩ ⟨1, 7⟩ 0 0 = .error (.authenticationError 1)) ∧
    (∀ b, dbCorrupted.rows 1 = some (some b) →
      bind ⟨cfg0, dbCorrupted⟩ ⟨1, 7⟩ 0 0 =
        match passwords_match b 7 cfg0.serverSetup 1 0 0 with
        | .ok _ => .ok ()
        | .error _ => .error (.authenticationError 1)) ∧
    (bind ⟨cfg0, dbCorrupted⟩ ⟨1, 7⟩ 0 0 = .ok () ↔
      ∃ b, dbCorrupted.rows 1 = some (some b) ∧
        passwords_match b 7 cfg0.serverSetup 1 0 0 = .ok ()) ∧
    (∀ e, bind ⟨cfg0, dbCorrupted⟩ ⟨1, 7⟩ 0 0 = .error e →
      e = .authenticationError 1) :=
  c5_bind_legacy_path ⟨cfg0, dbCorrupted⟩ 1 7 0 0 rfl

/-- C6 (counterexample to the claim as stated): on the legacy bind path a
stored blob that fails to deserialize does NOT surface as an internal
error — `bind` for user `1` of the corrupted store reports the generic
`AuthenticationError`, contradicting the claim that every operation reading
a stored password file surfaces corruption as an internal error. -/
theorem c6_counterexample :
    bind ⟨cfg0, dbCorrupted⟩ ⟨1, 7⟩ 0 0 = .error (.authenticationError 1) := by
  decide

/-- C6 (amended): when the stored bytes fail to deserialize, the PAKE
`login_start` path surfaces the internal error
`InternalError("Corrupted password file for ..")`, not an authentication
error; the legacy `bind` path, however, collapses the deserialization
failure into the generic `AuthenticationError` like every other of its
sub-step failures. -/
theorem c6_storage_corruption (cfg : ServerConfig) (db : DbState)
    (u : UserName) (b : Bytes) (msg : ClientLoginStartMessage)
    (pw : Password) (sn cn sn' : Nat) (hav : db.available = true)
    (hrow : db.rows u = some (some b)) (hbad : deserializePF b = .error ()) :
    login_start ⟨cfg, db⟩ ⟨u, msg⟩ sn = .error (.internalCorruptedFile u) ∧
    bind ⟨cfg, db⟩ ⟨u, pw⟩ cn sn' = .error (.authenticationError u) := by
  constructor
  · simp [login_start, get_password_file_for_user, fetchOptional, hav, hrow,
      hbad]
  · simp [bind, fetchOne, hav, hrow, passwords_match, hbad]

/-- C6 witness: the amended corruption behavior evaluated for user `1` of
the corrupted store (stored blob `[]`). -/
theorem c6_storage_corruption_witness :
    login_start ⟨cfg0, dbCorrupted⟩ ⟨1, ⟨7⟩⟩ 5 =
      .error (.internalCorruptedFile 1) ∧
    bind ⟨cfg0, dbCorrupted⟩ ⟨1, 7⟩ 0 0 = .error (.authenticationError 1) :=
  c6_storage_corruption cfg0 dbCorrupted 1 [] ⟨7⟩ 7 5 0 0 rfl rfl rfl

/-- C7 (counterexample to the claim as stated): when the store call itself
errors, `bind` does NOT propagate an internal error — its `if let Ok(row)`
treats the failed fetch like a missing user and reports the generic
`AuthenticationError`, contradicting the claim for the bind path. -/
theorem c7_counterexample :
    bind ⟨cfg0, dbDown⟩ ⟨1, 7⟩ 0 0 = .error (.authenticationError 1) := by
  decide

/-- C7 (amended): when the credential-store call itself errors,
`login_start` propagates it as the internal database error (no retry, no
conversion); the legacy `bind` path instead converts the failed fetch into
the generic `AuthenticationError`. -/
theorem c7_store_unavailable (cfg : ServerConfig) (db : DbState)
    (u : UserName) (msg : ClientLoginStartMessage) (pw : Password)
    (sn cn sn' : Nat) (hav : db.available = false) :
    login_start ⟨cfg, db⟩ ⟨u, msg⟩ sn = .error .databaseError ∧
    bind ⟨cfg, db⟩ ⟨u, pw⟩ cn sn' = .error (.authenticationError u) := by
  constructor <;>
    simp [login_start, get_password_file_for_user, fetchOptional, bind,
      fetchOne, hav]

/-- C7 witness: the amended unavailable-store behavior evaluated for user
`1` against the unavailable store. -/
theorem c7_store_unavailable_witness :
    login_start ⟨cfg0, dbDown⟩ ⟨1, ⟨7⟩⟩ 5 = .error .databaseError ∧
    bind ⟨cfg0, dbDown⟩ ⟨1, 7⟩ 0 0 = .error (.authenticationError 1) :=
  c7_store_unavailable cfg0 dbDown 1 ⟨7⟩ 7 5 0 0 rfl

/-- The `UPDATE` for a username with no row leaves the store unchanged. -/
theorem updatedDb_no_row {db : DbState} {u : UserName} {bytes : Bytes}
    (hrow : db.rows u = none) : updatedDb db u bytes = db := by
  obtain ⟨rows, avail⟩ := db
  have hrow' : rows u = none := hrow
  unfold updatedDb
  congr 1
  funext v
  by_cases hv : v = u
  · subst hv
    simp [hrow']
  · simp [hv]

/-- Provision password `10` and then password `20` for username `1`, which
has no user row, then run the login exchange with the newest password. -/
def reRegisterThenLoginGhost : Except DomainError UserName :=
  match register_password ⟨cfg0, dbEmpty⟩ 1 10 0 with
  | .error e => .error e
  | .ok db1 =>
    match register_password ⟨cfg0, db1⟩ 1 20 1 with
    | .error e => .error e
    | .ok db2 => attempt_login ⟨cfg0, db2⟩ 1 20 2 3

/-- C8 (counterexample to the claim as stated): the write in
`registration_finish` is an `UPDATE`, not an upsert — for a username with no
user row both registrations report success yet persist nothing, so the
subsequent login exchange with the new password fails instead of
succeeding. -/
theorem c8_counterexample :
    reRegisterThenLoginGhost = .error .authenticationProtocolError := by decide

/-- C8 (amended): for a user whose row exists (against an available store)
the write has update-in-place, last-write-wins semantics: after a second
registration for the same user, the login exchange with the new password
succeeds and the one with the old password fails with the authentication
(protocol) error.  For a user with no row the write affects zero rows (see
the C9 theorem). -/
theorem c8_overwrite_last_write_wins (cfg : ServerConfig) (db : DbState)
    (u : UserName) (cell : Option Bytes) (pw1 pw2 : Password)
    (rn1 rn2 cn sn cn' sn' : Nat) (hav : db.available = true)
    (hrow : db.rows u = some cell) (hne : pw1 ≠ pw2) :
    ∃ db1 db2, register_password ⟨cfg, db⟩ u pw1 rn1 = .ok db1 ∧
      register_password ⟨cfg, db1⟩ u pw2 rn2 = .ok db2 ∧
      attempt_login ⟨cfg, db2⟩ u pw2 cn sn = .ok u ∧
      attempt_login ⟨cfg, db2⟩ u pw1 cn' sn' =
        .error .authenticationProtocolError := by
  have hav1 : (updatedDb db u (serializePF ⟨cfg.serverSetup, u, pw1⟩)).available
      = true := by simpa [updatedDb] using hav
  have hrow1 : (updatedDb db u (serializePF ⟨cfg.serverSetup, u, pw1⟩)).rows u
      = some (some (serializePF ⟨cfg.serverSetup, u, pw1⟩)) := by
    simp [updatedDb, hrow]
  refine ⟨updatedDb db u (serializePF ⟨cfg.serverSetup, u, pw1⟩),
    updatedDb (updatedDb db u (serializePF ⟨cfg.serverSetup, u, pw1⟩)) u
      (serializePF ⟨cfg.serverSetup, u, pw2⟩),
    register_password_ok cfg db u pw1 rn1 hav,
    register_password_ok cfg _ u pw2 rn2 hav1, ?_, ?_⟩
  · exact attempt_login_with_file cfg _ u pw2 cn sn _
      (get_password_file_for_user_updated cfg _ u _ _ hav1 hrow1) rfl rfl
  · exact attempt_login_wrong_password cfg _ u pw1 cn' sn' _
      (get_password_file_for_user_updated cfg _ u _ _ hav1 hrow1)
      (Ne.symm hne)

/-- C8 witness: the amended overwrite semantics evaluated for user `1` (who
has a row), first password `10`, second password `20`. -/
theorem c8_overwrite_last_write_wins_witness :
    ∃ db1 db2, register_password ⟨cfg0, dbNoPassword⟩ 1 10 0 = .ok db1 ∧
      register_password ⟨cfg0, db1⟩ 1 20 1 = .ok db2 ∧
      attempt_login ⟨cfg0, db2⟩ 1 20 2 3 = .ok 1 ∧
      attempt_login ⟨cfg0, db2⟩ 1 10 4 5 =
        .error .authenticationProtocolError :=
  c8_overwrite_last_write_wins cfg0 dbNoPassword 1 none 10 20 0 1 2 3 4 5
    rfl rfl (by decide)

/-- C9: when the username recovered from the (genuinely sealed) envelope has
no row in the users table, `registration_finish` still returns success, the
`UPDATE` affects zero rows (its row count is ignored), and the store is left
exactly as it was: the caller sees `Ok` although no credential was
persisted. -/
theorem c9_registration_finish_no_row (cfg : ServerConfig) (db : DbState)
    (u : UserName) (up : RegistrationUpload) (hav : db.available = true)
    (hrow : db.rows u = none) :
    registration_finish ⟨cfg, db⟩
      ⟨sealAead cfg.privateKey (serializeRegSD ⟨u⟩), up⟩ = .ok db := by
  simp [registration_finish, openAead_sealAead,
    deserializeRegSD_serializeRegSD, hav, updatedDb_no_row hrow]

/-- C9 witness: `registration_finish` for user `1` against the store with no
rows returns success and the unchanged store. -/
theorem c9_registration_finish_no_row_witness :
    registration_finish ⟨cfg0, dbEmpty⟩
      ⟨sealAead cfg0.privateKey (serializeRegSD ⟨1⟩), ⟨0, 1, 5⟩⟩ =
      .ok dbEmpty :=
  c9_registration_finish_no_row cfg0 dbEmpty 1 ⟨0, 1, 5⟩ rfl rfl

/-- C10: `login_finish` never accesses the credential store — its result
(both the authentication decision and the returned identity) is the same for
every store state, so the stored password file or the user row may change or
disappear between `login_start` and `login_finish` without affecting the
outcome; everything is derived from the opened envelope and the client's
finalization. -/
theorem c10_login_finish_frame (cfg : ServerConfig) (db db' : DbState)
    (request : ClientLoginFinishRequest) :
    login_finish ⟨cfg, db⟩ request = login_finish ⟨cfg, db'⟩ request := rfl

end Lldap
